import Mathlib

/-!
Shallow embedding of `src/android.py`, a tool that interrogates the Android
NDK build system for build information.

Modelling conventions:
* Python dicts are association lists (`VarMap`), one entry per key; `None`-able
  arguments and attributes are `Option`s.
* The filesystem is a list of `(path, contents)` pairs, the head being the most
  recent write; `create_file` conses a new entry, so a rewrite of the same path
  is observable as growth of the list.  Directory creation performed by
  `os.makedirs` is abstracted away.
* The external `make interrogate` invocation is modelled by an oracle output
  string supplied by the caller; `question`'s generator over that output is a
  pure parsing function.
* A raised Python exception is an `Except.error`; an `assert` failure is
  `Except.error ()`.
-/

namespace AndroidNdk

/-- Whitespace characters recognised by Python str.strip: space, tab,
newline, carriage return, vertical tab, form feed. -/
def pyIsSpace (c : Char) : Bool :=
  c == ' ' || c == '\t' || c == '\n' || c == '\r' || c == '\x0b' || c == '\x0c'

/-- Python str.strip: drop leading and trailing whitespace. -/
def pyStrip (l : List Char) : List Char :=
  ((l.dropWhile pyIsSpace).reverse.dropWhile pyIsSpace).reverse

/-- Line iteration of cStringIO as used in `question`: the text is split after
every newline, each line keeps its trailing newline, and a final non-empty
chunk without a newline is still yielded as a line. -/
def splitLinesAux (acc : List Char) : List Char → List (List Char)
  | [] => if acc.isEmpty then [] else [acc.reverse]
  | c :: cs =>
    if c == '\n' then (acc.reverse ++ ['\n']) :: splitLinesAux [] cs
    else splitLinesAux (c :: acc) cs

/-- The lines of a captured output, as iterated by `for line in StringIO(output)`. -/
def splitLines (l : List Char) : List (List Char) :=
  splitLinesAux [] l

/-- Python `line.split('=', 1)` followed by unpacking into two names:
`some (before, after)` at the first '=', and `none` (the ValueError raised by
unpacking a 1-element list) when the line has no '='. -/
def splitEqOnce (l : List Char) : Option (List Char × List Char) :=
  if l.any (fun c => c == '=') then
    some (l.takeWhile (fun c => !(c == '=')),
          (l.dropWhile (fun c => !(c == '='))).drop 1)
  else none

/-- One step of the generator body in `question`:
`name, value = line.split('=', 1); value = value.strip()`. -/
def parseLine (l : List Char) : Option (String × String) :=
  match splitEqOnce l with
  | none => none
  | some nv => some (String.mk nv.1, String.mk (pyStrip nv.2))

/-- The generator in `question`, run over the captured output lines: the pairs
yielded before the first malformed line, and whether the generator ran to
completion (`false` means a ValueError was raised at some line, after the
earlier pairs had already been yielded). -/
def parseLines : List (List Char) → List (String × String) × Bool
  | [] => ([], true)
  | l :: ls =>
    match parseLine l with
    | none => ([], false)
    | some p => (p :: (parseLines ls).1, (parseLines ls).2)

/-- The parsing performed by `Interrogator.question` on the captured output of
the external build tool. -/
def questionParse (output : String) : List (String × String) × Bool :=
  parseLines (splitLines output.data)

/-- Index of the first '=' in a line (the line's length when there is none).
Spec-side formalisation of "splits each line at the first '=' character". -/
def firstEqIdx : List Char → Nat
  | [] => 0
  | c :: cs => if c == '=' then 0 else firstEqIdx cs + 1

/-- Spec-side description of one parsed line: the name is the text before the
first '=', the value is the whitespace-trimmed text after it. -/
def lineSpec (l : List Char) : String × String :=
  (String.mk (l.take (firstEqIdx l)),
   String.mk (pyStrip (l.drop (firstEqIdx l + 1))))

/-- A Python dict of Make variables, as an association list (one entry per
key; a dict iterates each of its entries exactly once). -/
abbrev VarMap := List (String × String)

/-- Filesystem model: `(path, contents)` pairs, most recent write first.  The
NDK directory supplied by the caller is just an entry whose path exists. -/
abbrev FS := List (String × String)

/-- os.path.exists. -/
def fsExists (fs : FS) (path : String) : Bool :=
  fs.any (fun e => e.1 == path)

/-- create_file: `os.makedirs` on the parent directory (idempotent, abstracted
away here) followed by an overwriting `open(path, 'w')` + write.  The new
entry is consed on, so every write is observable. -/
def create_file (fs : FS) (path contents : String) : FS :=
  (path, contents) :: fs

/-- shutil.rmtree: recursively remove the path and everything below it. -/
def rmtree (fs : FS) (path : String) : FS :=
  fs.filter (fun e => !(e.1 == path || (path ++ "/").isPrefixOf e.1))

/-- The mutable attributes of an Interrogator instance. -/
structure Interrogator where
  interrogate_room : String
  android_ndk : String
  build_type : Option String
  android_vars : Option VarMap
  application_vars : Option VarMap
  deriving DecidableEq

def STATIC_LIBRARY : String := "BUILD_STATIC_LIBRARY"

def SHARED_LIBRARY : String := "BUILD_SHARED_LIBRARY"

def EXECUTABLE : String := "BUILD_EXECUTABLE"

/-- The three-element build-type enumeration (frozenset in the source). -/
def BUILD_TYPES : List String := [STATIC_LIBRARY, SHARED_LIBRARY, EXECUTABLE]

def MODULE : String := "InterrogateActivity"

/-- The fixed driver Makefile written by the constructor, with the NDK path
and the constant module name substituted. -/
def makefileText (android_ndk : String) : String :=
  "# Makefile\n" ++
  "include " ++ android_ndk ++ "/build/core/build-local.mk\n" ++
  "\n" ++
  "interrogate:\n" ++
  "\t@echo TARGET_CCFLAGS=$(call get-src-file-target-cflags," ++ MODULE ++ ".cpp)\n" ++
  "\t@echo TARGET_CC=$(TARGET_CC)\n" ++
  "\t@echo TARGET_CFLAGS=$(TARGET_CFLAGS)\n" ++
  "\t@echo TARGET_CPP=$(TARGET_CPP)\n" ++
  "\t@echo TARGET_CPPFLAGS=$(TARGET_CPPFLAGS)\n" ++
  "\t@echo TARGET_CXX=$(TARGET_CXX)\n" ++
  "\t@echo TARGET_CXXFLAGS=$(TARGET_CXXFLAGS)\n" ++
  "\t@echo TARGET_LD=$(TARGET_LD)\n" ++
  "\t@echo TARGET_LDFLAGS=$(TARGET_LDFLAGS)\n" ++
  "\t@echo TARGET_AR=$(TARGET_AR)\n" ++
  "\t@echo TARGET_ARFLAGS=$(TARGET_ARFLAGS)\n" ++
  "\t@echo TARGET_STRIP=$(TARGET_STRIP)\n" ++
  "\t@echo TARGET_OBJCOPY=$(TARGET_OBJCOPY)\n" ++
  "\t@echo LOCAL_CFLAGS=$(LOCAL_CFLAGS)\n" ++
  "\t@echo LOCAL_CPPFLAGS=$(LOCAL_CPPFLAGS)\n" ++
  "\t@echo LOCAL_CXXFLAGS=$(LOCAL_CXXFLAGS)\n" ++
  "\t@echo NDK_APP_CFLAGS=$(NDK_APP_CFLAGS)\n" ++
  "\t@echo NDK_APP_CPPFLAGS=$(NDK_APP_CPPFLAGS)\n" ++
  "\t@echo NDK_APP_CXXFLAGS=$(NDK_APP_CXXFLAGS)\n" ++
  "\t@echo C_INCLUDES=$(TARGET_C_INCLUDES) \\\n" ++
  "\t\t$(call module-get-listed-export,\\\n" ++
  "\t\t$(call module-get-all-dependencies," ++ MODULE ++ "),C_INCLUDES)\n" ++
  "\n" ++
  ".PHONY: interrogate\n"

/-- Interrogator.__init__: raises RuntimeError when the NDK path does not
exist (leaving the filesystem untouched, since the check precedes every
write), otherwise records the configuration and writes the driver Makefile
into the scratch directory. -/
def Interrogator.init (fs : FS) (interrogate_room android_ndk : String) :
    Except String Interrogator × FS :=
  if fsExists fs android_ndk then
    (Except.ok ⟨interrogate_room, android_ndk, none, none, none⟩,
     create_file fs (interrogate_room ++ "/Makefile") (makefileText android_ndk))
  else
    (Except.error ("Could not find NDK at " ++ android_ndk), fs)

/-- Python truthiness of an optional dict: None and the empty dict are falsy. -/
def truthy (o : Option VarMap) : Bool :=
  match o with
  | none => false
  | some l => !l.isEmpty

/-- The variable-assignment lines written by the `for name in vars` loops,
one `name := value` line per entry, in iteration order. -/
def varLines : VarMap → String
  | [] => ""
  | kv :: rest => kv.1 ++ " := " ++ kv.2 ++ "\n" ++ varLines rest

/-- The contents written to jni/Android.mk by `set_android_vars`. -/
def androidMkText (build_type : String) (android_vars : Option VarMap) : String :=
  "# Android.mk\n" ++
  "LOCAL_PATH := $(call my-dir)\n" ++
  "include $(CLEAR_VARS)\n" ++
  "LOCAL_MODULE := " ++ MODULE ++ "\n" ++
  "LOCAL_SRC_FILES := " ++ MODULE ++ ".cpp\n" ++
  (if truthy android_vars then varLines (android_vars.getD []) else "") ++
  "include $(" ++ build_type ++ ")\n"

/-- The contents written to jni/Application.mk by `set_application_vars`. -/
def applicationMkText (application_vars : Option VarMap) : String :=
  "# Application.mk\n" ++
  (if truthy application_vars then varLines (application_vars.getD []) else "")

/-- Interrogator.set_android_vars: asserts the build type is in the
enumeration (an assertion failure is `Except.error ()` and happens before any
state change or write), is a no-op when the requested type equals the current
one, variables were previously supplied, and no new ones are; otherwise
records the new configuration and rewrites jni/Android.mk. -/
def set_android_vars (st : Interrogator × FS) (build_type : String)
    (android_vars : Option VarMap) : Except Unit (Interrogator × FS) :=
  if build_type ∈ BUILD_TYPES then
    if st.1.build_type = some build_type ∧ st.1.android_vars ≠ none ∧
        android_vars = none then
      Except.ok st
    else
      Except.ok
        ({ st.1 with build_type := some build_type, android_vars := android_vars },
         create_file st.2 (st.1.interrogate_room ++ "/jni/Android.mk")
           (androidMkText build_type android_vars))
  else
    Except.error ()

/-- Interrogator.set_application_vars: a no-op when variables were previously
supplied and the new call supplies none; otherwise records the new variables
and rewrites jni/Application.mk. -/
def set_application_vars (st : Interrogator × FS)
    (application_vars : Option VarMap) : Interrogator × FS :=
  if st.1.application_vars ≠ none ∧ application_vars = none then st
  else
    ({ st.1 with application_vars := application_vars },
     create_file st.2 (st.1.interrogate_room ++ "/jni/Application.mk")
       (applicationMkText application_vars))

/-- Interrogator.question, with the external `make interrogate` invocation
modelled by an oracle output string: applies the two setters (so all file
writes happen before the invocation), then parses the captured output. -/
def question (st : Interrogator × FS) (build_type : String)
    (android_vars application_vars : Option VarMap) (output : String) :
    Except Unit ((Interrogator × FS) × (List (String × String) × Bool)) :=
  match set_android_vars st build_type android_vars with
  | Except.error e => Except.error e
  | Except.ok st1 =>
      Except.ok (set_application_vars st1 application_vars, questionParse output)

/-- `question()` called with no arguments: the source's defaults are
`build_type=STATIC_LIBRARY`, `android_vars=None`, `application_vars=None`. -/
def questionNoArgs (st : Interrogator × FS) (output : String) :
    Except Unit ((Interrogator × FS) × (List (String × String) × Bool)) :=
  question st STATIC_LIBRARY none none output

/-- create_temporary_directory as a scope: tempfile.mkdtemp makes the
directory exist, the body runs (returning the filesystem it leaves behind and
either a value or a raised error), and the `finally` clause removes the tree
unconditionally before the scope exits. -/
def create_temporary_directory {α : Type} (path : String) (fs : FS)
    (body : FS → FS × Except String α) : FS × Except String α :=
  let r := body (create_file fs path "")
  (rmtree r.1 path, r.2)

/-- The `interrogate` context manager: a temporary scratch-directory scope
around constructing an Interrogator and running the caller's block.
`os.path.abspath` is abstracted away; the body may itself end in an error,
which covers both errors raised inside the scope and a failing external
build-tool invocation. -/
def interrogate {α : Type} (tmpPath android_ndk : String) (fs : FS)
    (body : Interrogator → FS → FS × Except String α) : FS × Except String α :=
  create_temporary_directory tmpPath fs (fun fs1 =>
    match Interrogator.init fs1 tmpPath android_ndk with
    | (Except.error e, fs2) => (fs2, Except.error e)
    | (Except.ok i, fs2) => body i fs2)

/-! Lemmas about the line parser. -/

theorem takeWhile_firstEqIdx (l : List Char) :
    l.takeWhile (fun c => !(c == '=')) = l.take (firstEqIdx l) := by
  induction l with
  | nil => rfl
  | cons c cs ih =>
    by_cases hc : c = '='
    · subst hc
      simp [List.takeWhile_cons, firstEqIdx]
    · simp [List.takeWhile_cons, firstEqIdx, hc, ih]

theorem dropWhile_firstEqIdx (l : List Char) :
    (l.dropWhile (fun c => !(c == '='))).tail = l.drop (firstEqIdx l + 1) := by
  induction l with
  | nil => rfl
  | cons c cs ih =>
    by_cases hc : c = '='
    · subst hc
      simp [List.dropWhile_cons, firstEqIdx]
    · simp [List.dropWhile_cons, firstEqIdx, hc, ih]

theorem parseLine_hasEq (l : List Char) (h : '=' ∈ l) :
    parseLine l = some (lineSpec l) := by
  have hb : l.any (fun c => c == '=') = true := by
    rw [List.any_eq_true]
    exact ⟨'=', h, by simp⟩
  simp [parseLine, splitEqOnce, hb, lineSpec, takeWhile_firstEqIdx,
    dropWhile_firstEqIdx]

theorem parseLine_noEq (l : List Char) (h : '=' ∉ l) :
    parseLine l = none := by
  have hb : l.any (fun c => c == '=') = false := by
    rw [List.any_eq_false]
    intro c hc
    simp only [beq_iff_eq]
    exact fun he => h (he ▸ hc)
  simp [parseLine, splitEqOnce, hb]

theorem parseLines_all (ls : List (List Char)) (h : ∀ l ∈ ls, '=' ∈ l) :
    parseLines ls = (ls.map lineSpec, true) := by
  induction ls with
  | nil => rfl
  | cons l ls ih =>
    rw [parseLines, parseLine_hasEq l (h l (List.mem_cons_self l ls))]
    rw [ih (fun x hx => h x (List.mem_cons_of_mem l hx))]
    rfl

theorem parseLines_bad (ls : List (List Char)) (h : ∃ l ∈ ls, '=' ∉ l) :
    parseLines ls =
      ((ls.takeWhile (fun l => l.any (fun c => c == '='))).map lineSpec, false) := by
  induction ls with
  | nil => exact absurd h (by simp)
  | cons l ls ih =>
    by_cases hE : '=' ∈ l
    · have hb : l.any (fun c => c == '=') = true := by
        rw [List.any_eq_true]
        exact ⟨'=', hE, by simp⟩
      rw [parseLines, parseLine_hasEq l hE]
      rcases h with ⟨b, hb2, hbe⟩
      rcases List.mem_cons.mp hb2 with rfl | hb3
      · exact absurd hE hbe
      · rw [ih ⟨b, hb3, hbe⟩]
        simp [List.takeWhile_cons, hb]
    · have hb : l.any (fun c => c == '=') = false := by
        rw [List.any_eq_false]
        intro c hc
        simp only [beq_iff_eq]
        exact fun he => hE (he ▸ hc)
      rw [parseLines, parseLine_noEq l hE]
      simp [List.takeWhile_cons, hb]

/-! Lemmas about strings, line structure and the filesystem model. -/

theorem data_append (s t : String) : (s ++ t).data = s.data ++ t.data := by
  cases s
  cases t
  rfl

theorem append_empty_str (s : String) : s ++ "" = s := by
  cases s with
  | mk d =>
    show String.mk (d ++ []) = String.mk d
    rw [List.append_nil]

theorem splitLinesAux_line (l : List Char) (hl : '\n' ∉ l) (acc rest : List Char) :
    splitLinesAux acc (l ++ '\n' :: rest) =
      (acc.reverse ++ l ++ ['\n']) :: splitLinesAux [] rest := by
  induction l generalizing acc with
  | nil => simp [splitLinesAux]
  | cons c cs ih =>
    have hc : (c == '\n') = false := by
      have hne : c ≠ '\n' := fun h => hl (by simp [h])
      simp [hne]
    rw [List.cons_append, splitLinesAux, hc]
    simp only [Bool.false_eq_true, if_false]
    rw [ih (fun h => hl (List.mem_cons_of_mem c h)) (c :: acc)]
    simp [List.append_assoc]

theorem splitLinesAux_varLines (vars : VarMap)
    (hnl : ∀ kv ∈ vars, '\n' ∉ (kv.1 : String).data ∧ '\n' ∉ (kv.2 : String).data)
    (rest : List Char) :
    splitLinesAux [] ((varLines vars).data ++ rest) =
      vars.map (fun kv => (kv.1 ++ " := " ++ kv.2 ++ "\n").data) ++
        splitLinesAux [] rest := by
  induction vars with
  | nil =>
    show splitLinesAux [] (([] : List Char) ++ rest) = [] ++ splitLinesAux [] rest
    rw [List.nil_append, List.nil_append]
  | cons kv rest2 ih =>
    have h1 := hnl kv (List.mem_cons_self kv rest2)
    have hshape : (varLines (kv :: rest2)).data ++ rest =
        (kv.1.data ++ " := ".data ++ kv.2.data) ++
          '\n' :: ((varLines rest2).data ++ rest) := by
      show (kv.1 ++ " := " ++ kv.2 ++ "\n" ++ varLines rest2).data ++ rest = _
      simp [data_append, List.append_assoc]
    rw [hshape, splitLinesAux_line _ ?hnotin []]
    case hnotin =>
      intro hmem
      rcases List.mem_append.mp hmem with hmem2 | hmem2
      · rcases List.mem_append.mp hmem2 with hmem3 | hmem3
        · exact h1.1 hmem3
        · simp at hmem3
      · exact h1.2 hmem2
    rw [ih (fun x hx => hnl x (List.mem_cons_of_mem kv hx))]
    simp [data_append, List.append_assoc]

theorem any_filter_false {β : Type} (p q : β → Bool) (l : List β)
    (hpq : ∀ e, p e = true → q e = false) : (l.filter p).any q = false := by
  induction l with
  | nil => rfl
  | cons e t ih =>
    rw [List.filter_cons]
    by_cases hp : p e = true
    · rw [if_pos hp, List.any_cons, hpq e hp, Bool.false_or]
      exact ih
    · rw [if_neg hp]
      exact ih

theorem all_filter_true {β : Type} (p q : β → Bool) (l : List β)
    (hpq : ∀ e, p e = true → q e = true) : (l.filter p).all q = true := by
  induction l with
  | nil => rfl
  | cons e t ih =>
    rw [List.filter_cons]
    by_cases hp : p e = true
    · rw [if_pos hp, List.all_cons, hpq e hp, Bool.true_and]
      exact ih
    · rw [if_neg hp]
      exact ih

theorem fsExists_rmtree (fs : FS) (path : String) :
    fsExists (rmtree fs path) path = false := by
  refine any_filter_false _ _ fs (fun e hp => ?_)
  cases hx : (e.1 == path) with
  | false => rfl
  | true =>
    rw [hx, Bool.true_or] at hp
    simp at hp

theorem all_rmtree (fs : FS) (path : String) :
    (rmtree fs path).all (fun e => !((path ++ "/").isPrefixOf e.1)) = true := by
  refine all_filter_true _ _ fs (fun e hp => ?_)
  cases hx : ((path ++ "/").isPrefixOf e.1) with
  | false => rfl
  | true =>
    rw [hx, Bool.or_true] at hp
    simp at hp

/-! The claims. -/

/-- Claim C3: for every captured build-tool output in which each line contains
at least one '=', the parsing in `question` splits each line at the first '='
character, takes the left portion as the name and the whitespace-trimmed right
portion as the value, and yields the pairs in line order, running to
completion. -/
theorem c3_question_parsing (output : String)
    (h : ∀ l ∈ splitLines output.data, '=' ∈ l) :
    questionParse output = ((splitLines output.data).map lineSpec, true) :=
  parseLines_all (splitLines output.data) h

/-- Witness for C3 at the spec's concrete output: parsing "A=1\nB=two words\n"
yields exactly [("A", "1"), ("B", "two words")]. -/
theorem c3_question_parsing_witness :
    questionParse "A=1\nB=two words\n" = ([("A", "1"), ("B", "two words")], true) :=
  (c3_question_parsing "A=1\nB=two words\n" (by decide)).trans (by decide)

/-- Claim C8: for every captured output containing at least one line without
an '=' separator, the parsing in `question` raises at the first such line:
only the pairs of the earlier lines are yielded (the malformed line is not
skipped), and nothing after it is parsed (not recoverable mid-stream). -/
theorem c8_malformed_line (output : String)
    (h : ∃ l ∈ splitLines output.data, '=' ∉ l) :
    questionParse output =
      (((splitLines output.data).takeWhile
          (fun l => l.any (fun c => c == '='))).map lineSpec, false) :=
  parseLines_bad (splitLines output.data) h

/-- Witness for C8: on "A=1\nBAD\nC=3\n" the parser yields ("A", "1"), then
raises at "BAD\n"; ("C", "3") is never produced. -/
theorem c8_malformed_line_witness :
    questionParse "A=1\nBAD\nC=3\n" = ([("A", "1")], false) :=
  (c8_malformed_line "A=1\nBAD\nC=3\n" (by decide)).trans (by decide)

/-- Claim C2: for every variable mapping, set_application_vars(vars) followed
by set_application_vars(None) leaves the state (and so the previously written
jni/Application.mk) unchanged: the second call performs no file write. -/
theorem c2_none_never_clears (i : Interrogator) (fs : FS) (v : VarMap)
    (_hv : v ≠ []) (st1 : Interrogator × FS)
    (h1 : set_application_vars (i, fs) (some v) = st1) :
    set_application_vars st1 none = st1 := by
  have h2 : set_application_vars (i, fs) (some v) =
      ({ i with application_vars := some v },
       create_file fs (i.interrogate_room ++ "/jni/Application.mk")
         (applicationMkText (some v))) := by
    rw [set_application_vars, if_neg]
    rintro ⟨-, hc⟩
    exact Option.some_ne_none v hc
  rw [← h1, h2, set_application_vars, if_pos]
  exact ⟨fun hc => Option.some_ne_none v hc, rfl⟩

/-- Witness for C2 at a concrete non-empty mapping. -/
theorem c2_none_never_clears_witness :
    set_application_vars
      (⟨"room", "ndk", none, none, some [("APP_OPTIM", "release")]⟩,
       [("room/jni/Application.mk", applicationMkText (some [("APP_OPTIM", "release")]))])
      none =
    (⟨"room", "ndk", none, none, some [("APP_OPTIM", "release")]⟩,
     [("room/jni/Application.mk", applicationMkText (some [("APP_OPTIM", "release")]))]) :=
  c2_none_never_clears ⟨"room", "ndk", none, none, none⟩ [] [("APP_OPTIM", "release")]
    (by decide) _ rfl

/-- Claim C9: set_application_vars with an empty mapping writes
jni/Application.mk containing only the header comment, and a subsequent
set_application_vars(None) is a no-op leaving the state unchanged: the
memoization check only requires the stored mapping to be non-None, not
non-empty. -/
theorem c9_empty_mapping_memoized (i : Interrogator) (fs : FS) :
    set_application_vars (i, fs) (some []) =
      ({ i with application_vars := some [] },
       create_file fs (i.interrogate_room ++ "/jni/Application.mk")
         "# Application.mk\n") ∧
    set_application_vars (set_application_vars (i, fs) (some [])) none =
      set_application_vars (i, fs) (some []) := by
  have h2 : set_application_vars (i, fs) (some []) =
      ({ i with application_vars := some [] },
       create_file fs (i.interrogate_room ++ "/jni/Application.mk")
         "# Application.mk\n") := by
    rw [set_application_vars, if_neg]
    · rw [show applicationMkText (some []) = "# Application.mk\n" from rfl]
    · rintro ⟨-, hc⟩
      exact Option.some_ne_none ([] : VarMap) hc
  refine ⟨h2, ?_⟩
  rw [h2, set_application_vars, if_pos]
  exact ⟨fun hc => Option.some_ne_none ([] : VarMap) hc, rfl⟩

/-- Claim C5: for every filesystem in which the NDK path does not exist,
constructing an Interrogator fails immediately with a RuntimeError carrying
the configuration message, and the filesystem is returned unchanged: no file
(in particular no Makefile) is written before the failure. -/
theorem c5_missing_ndk_fails (fs : FS) (room ndk : String)
    (h : fsExists fs ndk = false) :
    Interrogator.init fs room ndk =
      (Except.error ("Could not find NDK at " ++ ndk), fs) := by
  rw [Interrogator.init, if_neg]
  simp [h]

/-- Witness for C5 at a concrete empty filesystem and missing NDK path. -/
theorem c5_missing_ndk_fails_witness :
    Interrogator.init ([] : FS) "room" "/no/such/ndk" =
      (Except.error ("Could not find NDK at " ++ "/no/such/ndk"), ([] : FS)) :=
  c5_missing_ndk_fails [] "room" "/no/such/ndk" rfl

/-- Claim C6: set_android_vars fails its assertion exactly when the requested
build type is outside the three-element enumeration; the assertion is checked
before any state change or file write (the error branch precedes both in the
definition), and every value inside the enumeration passes it. -/
theorem c6_build_type_assertion (st : Interrogator × FS) (v : String)
    (vars : Option VarMap) :
    set_android_vars st v vars = Except.error () ↔ v ∉ BUILD_TYPES := by
  by_cases hv : v ∈ BUILD_TYPES
  · rw [set_android_vars, if_pos hv]
    constructor
    · intro h
      split_ifs at h
    · intro h
      exact absurd hv h
  · rw [set_android_vars, if_neg hv]
    simp [hv]

/-- Counterexample to claim C1 as stated: when the prior variable argument was
None, an immediately repeated set_android_vars with the identical type and no
new variables is not a no-op — it rewrites jni/Android.mk (the write log
grows by a second, identical entry). -/
theorem c1_counterexample :
    set_android_vars (⟨"room", "ndk", none, none, none⟩, ([] : FS))
        STATIC_LIBRARY none =
      Except.ok (⟨"room", "ndk", some STATIC_LIBRARY, none, none⟩,
        [("room/jni/Android.mk", androidMkText STATIC_LIBRARY none)]) ∧
    set_android_vars (⟨"room", "ndk", some STATIC_LIBRARY, none, none⟩,
        [("room/jni/Android.mk", androidMkText STATIC_LIBRARY none)])
        STATIC_LIBRARY none =
      Except.ok (⟨"room", "ndk", some STATIC_LIBRARY, none, none⟩,
        [("room/jni/Android.mk", androidMkText STATIC_LIBRARY none),
         ("room/jni/Android.mk", androidMkText STATIC_LIBRARY none)]) ∧
    ([("room/jni/Android.mk", androidMkText STATIC_LIBRARY none),
      ("room/jni/Android.mk", androidMkText STATIC_LIBRARY none)] : FS) ≠
      [("room/jni/Android.mk", androidMkText STATIC_LIBRARY none)] := by
  refine ⟨rfl, rfl, by simp⟩

/-- Claim C1 as amended: the immediately repeated call with the identical type
and no new variables is a no-op provided the prior call supplied a variable
mapping (possibly empty) rather than None; the memoization check requires the
stored android_vars to be non-None. -/
theorem c1_repeat_same_type_noop (i : Interrogator) (fs : FS) (T : String)
    (hT : T ∈ BUILD_TYPES) (v : VarMap) (st1 : Interrogator × FS)
    (h1 : set_android_vars (i, fs) T (some v) = Except.ok st1) :
    set_android_vars st1 T none = Except.ok st1 := by
  rw [set_android_vars, if_pos hT,
    if_neg (fun hmem => Option.some_ne_none v hmem.2.2)] at h1
  injection h1 with h1
  subst h1
  rw [set_android_vars, if_pos hT, if_pos]
  exact ⟨rfl, fun hc => Option.some_ne_none v hc, rfl⟩

/-- Witness for the amended C1 at a concrete state and mapping. -/
theorem c1_repeat_same_type_noop_witness :
    set_android_vars
      (⟨"room", "ndk", some STATIC_LIBRARY, some [("LOCAL_ARM_MODE", "arm")], none⟩,
       [("room/jni/Android.mk",
         androidMkText STATIC_LIBRARY (some [("LOCAL_ARM_MODE", "arm")]))])
      STATIC_LIBRARY none =
    Except.ok
      (⟨"room", "ndk", some STATIC_LIBRARY, some [("LOCAL_ARM_MODE", "arm")], none⟩,
       [("room/jni/Android.mk",
         androidMkText STATIC_LIBRARY (some [("LOCAL_ARM_MODE", "arm")]))]) :=
  c1_repeat_same_type_noop ⟨"room", "ndk", none, none, none⟩ [] STATIC_LIBRARY
    (by decide) [("LOCAL_ARM_MODE", "arm")] _ rfl

/-- Claim C4: on every exit from the interrogation scope — normal completion,
an error raised inside it, or a failing external invocation (all captured by
the arbitrary body's outcome, and by the constructor's own error path) — the
scratch directory is recursively removed: afterwards neither the directory
path itself nor any path below it exists. -/
theorem c4_scope_always_removes {α : Type} (tmpPath android_ndk : String)
    (fs : FS) (body : Interrogator → FS → FS × Except String α) :
    fsExists (interrogate tmpPath android_ndk fs body).1 tmpPath = false ∧
    (interrogate tmpPath android_ndk fs body).1.all
      (fun e => !((tmpPath ++ "/").isPrefixOf e.1)) = true :=
  ⟨fsExists_rmtree _ _, all_rmtree _ _⟩

/-- Claim C10: question's build_type parameter defaults to STATIC_LIBRARY, so
calling question() with no arguments while the configured build type is
SHARED_LIBRARY or EXECUTABLE rewrites jni/Android.mk (whose new contents end
with the static-library include) and sets the stored build type back to
STATIC_LIBRARY, before the external build tool's output is consumed. -/
theorem c10_default_build_type (i : Interrogator) (fs : FS) (output : String)
    (h : i.build_type = some SHARED_LIBRARY ∨ i.build_type = some EXECUTABLE) :
    questionNoArgs (i, fs) output =
      Except.ok
        (set_application_vars
          ({ i with build_type := some STATIC_LIBRARY, android_vars := none },
           create_file fs (i.interrogate_room ++ "/jni/Android.mk")
             (androidMkText STATIC_LIBRARY none)) none,
         questionParse output) ∧
    ("include $(BUILD_STATIC_LIBRARY)\n").data.isSuffixOf
      (androidMkText STATIC_LIBRARY none).data = true := by
  constructor
  · have hset : set_android_vars (i, fs) STATIC_LIBRARY none =
        Except.ok
          ({ i with build_type := some STATIC_LIBRARY, android_vars := none },
           create_file fs (i.interrogate_room ++ "/jni/Android.mk")
             (androidMkText STATIC_LIBRARY none)) := by
      rw [set_android_vars, if_pos (by decide : STATIC_LIBRARY ∈ BUILD_TYPES),
        if_neg]
      rintro ⟨hbt, -, -⟩
      rcases h with hs | hs <;> rw [hs] at hbt <;>
        exact absurd (Option.some.inj hbt) (by decide)
    rw [questionNoArgs, question, hset]
  · decide

/-- Witness for C10 at a concrete state with SHARED_LIBRARY configured. -/
theorem c10_default_build_type_witness :
    questionNoArgs
      (⟨"room", "ndk", some SHARED_LIBRARY, some [("A", "1")], none⟩, ([] : FS))
      "X=1\n" =
      Except.ok
        ((⟨"room", "ndk", some STATIC_LIBRARY, none, none⟩,
          [("room/jni/Application.mk", "# Application.mk\n"),
           ("room/jni/Android.mk", androidMkText STATIC_LIBRARY none)]),
         ([("X", "1")], true)) ∧
    ("include $(BUILD_STATIC_LIBRARY)\n").data.isSuffixOf
      (androidMkText STATIC_LIBRARY none).data = true :=
  (fun hh => ⟨hh.1.trans (by rfl), hh.2⟩)
    (c10_default_build_type ⟨"room", "ndk", some SHARED_LIBRARY, some [("A", "1")], none⟩
      [] "X=1\n" (Or.inl rfl))

/-- The character-level decomposition of a generated Android.mk. -/
theorem androidMkText_chars (bt : String) (vars : VarMap) :
    (androidMkText bt (some vars)).data =
      "# Android.mk".data ++ '\n' ::
      ("LOCAL_PATH := $(call my-dir)".data ++ '\n' ::
      ("include $(CLEAR_VARS)".data ++ '\n' ::
      ("LOCAL_MODULE := InterrogateActivity".data ++ '\n' ::
      ("LOCAL_SRC_FILES := InterrogateActivity.cpp".data ++ '\n' ::
      ((varLines vars).data ++ ("include $(" ++ bt ++ ")\n").data))))) := by
  cases vars with
  | nil =>
    simp only [androidMkText, truthy, varLines, data_append, List.append_assoc]
    rfl
  | cons kv rest =>
    simp only [androidMkText, truthy, data_append, List.append_assoc,
      List.isEmpty_cons, Bool.not_false, if_true, Option.getD_some]
    rfl

/-- Counterexample to claim C7 as stated: the mapping with the single entry
LOCAL_SRC_FILES ↦ InterrogateActivity.cpp is written (one assignment line from
the mapping loop), but that key-value pair appears as two identical lines of
the generated jni/Android.mk, because it coincides with a line of the fixed
preamble — not "exactly one". -/
theorem c7_counterexample :
    set_android_vars (⟨"room", "ndk", none, none, none⟩, ([] : FS))
        STATIC_LIBRARY (some [("LOCAL_SRC_FILES", "InterrogateActivity.cpp")]) =
      Except.ok
        (⟨"room", "ndk", some STATIC_LIBRARY,
          some [("LOCAL_SRC_FILES", "InterrogateActivity.cpp")], none⟩,
         [("room/jni/Android.mk",
           androidMkText STATIC_LIBRARY
             (some [("LOCAL_SRC_FILES", "InterrogateActivity.cpp")]))]) ∧
    (splitLines (androidMkText STATIC_LIBRARY
        (some [("LOCAL_SRC_FILES", "InterrogateActivity.cpp")])).data).count
      ("LOCAL_SRC_FILES := InterrogateActivity.cpp\n").data = 2 :=
  ⟨rfl, by decide⟩

/-- Claim C7 as amended: every entry of the mapping contributes exactly one
Make assignment line, in iteration order — none dropped, none written twice by
the loop: the generated file's line sequence is exactly the fixed preamble,
one `name := value` line per entry, and (for Android.mk) the include line
(provided names and values contain no newline, which would break the line
structure).  Textual uniqueness of such a line in the whole file is not
guaranteed, since an entry may render identically to a preamble line. -/
theorem c7_one_line_per_entry (bt : String) (vars : VarMap)
    (hbt : bt ∈ BUILD_TYPES)
    (hnl : ∀ kv ∈ vars, '\n' ∉ (kv.1 : String).data ∧ '\n' ∉ (kv.2 : String).data) :
    splitLines (androidMkText bt (some vars)).data =
      ["# Android.mk\n".data, "LOCAL_PATH := $(call my-dir)\n".data,
       "include $(CLEAR_VARS)\n".data, "LOCAL_MODULE := InterrogateActivity\n".data,
       "LOCAL_SRC_FILES := InterrogateActivity.cpp\n".data] ++
      vars.map (fun kv => (kv.1 ++ " := " ++ kv.2 ++ "\n").data) ++
      [("include $(" ++ bt ++ ")\n").data] ∧
    splitLines (applicationMkText (some vars)).data =
      ["# Application.mk\n".data] ++
      vars.map (fun kv => (kv.1 ++ " := " ++ kv.2 ++ "\n").data) := by
  constructor
  · rw [splitLines, androidMkText_chars,
      splitLinesAux_line "# Android.mk".data (by decide),
      splitLinesAux_line "LOCAL_PATH := $(call my-dir)".data (by decide),
      splitLinesAux_line "include $(CLEAR_VARS)".data (by decide),
      splitLinesAux_line "LOCAL_MODULE := InterrogateActivity".data (by decide),
      splitLinesAux_line "LOCAL_SRC_FILES := InterrogateActivity.cpp".data (by decide),
      splitLinesAux_varLines vars hnl]
    have hbt3 : bt = STATIC_LIBRARY ∨ bt = SHARED_LIBRARY ∨ bt = EXECUTABLE := by
      simpa [BUILD_TYPES] using hbt
    rcases hbt3 with rfl | rfl | rfl <;> rfl
  · have happ : (applicationMkText (some vars)).data =
        "# Application.mk".data ++ '\n' :: ((varLines vars).data ++ ([] : List Char)) := by
      rw [List.append_nil]
      cases vars with
      | nil => rfl
      | cons kv rest => rfl
    rw [splitLines, happ, splitLinesAux_line "# Application.mk".data (by decide),
      splitLinesAux_varLines vars hnl]
    simp [splitLinesAux]

/-- Witness for the amended C7 at a concrete one-entry mapping. -/
theorem c7_one_line_per_entry_witness :
    splitLines (androidMkText STATIC_LIBRARY (some [("LOCAL_ARM_MODE", "arm")])).data =
      ["# Android.mk\n".data, "LOCAL_PATH := $(call my-dir)\n".data,
       "include $(CLEAR_VARS)\n".data, "LOCAL_MODULE := InterrogateActivity\n".data,
       "LOCAL_SRC_FILES := InterrogateActivity.cpp\n".data,
       "LOCAL_ARM_MODE := arm\n".data,
       "include $(BUILD_STATIC_LIBRARY)\n".data] ∧
    splitLines (applicationMkText (some [("LOCAL_ARM_MODE", "arm")])).data =
      ["# Application.mk\n".data, "LOCAL_ARM_MODE := arm\n".data] :=
  (fun hh => ⟨hh.1.trans (by rfl), hh.2.trans (by rfl)⟩)
    (c7_one_line_per_entry STATIC_LIBRARY [("LOCAL_ARM_MODE", "arm")]
      (by decide) (by decide))

end AndroidNdk
